import Mathlib

/-!
Verification of the External Data Aggregation & Caching Layer
(`backend/app/services/external_apis.py` and the route layer
`backend/app/routes/external_data.py`).

The embedding is shallow: Python JSON-ish values become the inductive
type `PyVal`; the module-level dictionaries `_cache` / `_cache_ttl`
become the association lists of `CacheState`; wall-clock instants and
durations become integer seconds; the single HTTP request an
adapter performs becomes an `Upstream` parameter describing what the
network would answer if called.  Each adapter is a pure function from
(parameters, cache state, current time, upstream answer) to a
`FetchOut` recording the returned value, the new cache state, and
whether the upstream was actually invoked.  Python numbers are
modelled as exact rationals.
-/

/-- A Python value as it occurs in the JSON payloads handled by
`external_apis.py`: `None`, numbers, strings, lists and string-keyed
dicts. -/
inductive PyVal where
  | none : PyVal
  | num : ℚ → PyVal
  | str : String → PyVal
  | list : List PyVal → PyVal
  | dict : List (String × PyVal) → PyVal

/-- Python truthiness (`if cached:` and friends): `None`, `0`, the
empty string, the empty list and the empty dict are falsy, everything
else is truthy. -/
def truthy : PyVal → Bool
  | .none => false
  | .num q => decide (q ≠ 0)
  | .str s => decide (s ≠ "")
  | .list l => !l.isEmpty
  | .dict l => !l.isEmpty

/-- Lookup in a Python dict modelled as an association list (first
binding wins, as later `set` operations prepend). -/
def lookup {α : Type} : List (String × α) → String → Option α
  | [], _ => none
  | (k2, v) :: rest, k => if k2 = k then some v else lookup rest k

/-- The module-level mutable state of `external_apis.py`: the two
dictionaries `_cache` (key to value) and `_cache_ttl` (key to expiry
instant). -/
structure CacheState where
  cache : List (String × PyVal)
  ttl : List (String × ℤ)

/-- The empty initial state (both dictionaries empty). -/
def emptyCache : CacheState := ⟨[], []⟩

/-- Embedding of `_get_cache`: return the stored value only when the
key is present in both dictionaries and the expiry instant is still in
the future; otherwise `None`. -/
def get_cache (st : CacheState) (now : ℤ) (key : String) : Option PyVal :=
  match lookup st.cache key, lookup st.ttl key with
  | some v, some expiry => if now < expiry then some v else none
  | _, _ => none

/-- Embedding of `_set_cache`: store the value and the expiry instant
`now + ttl_seconds`, overwriting any earlier binding for the key. -/
def set_cache (st : CacheState) (now : ℤ) (key : String) (v : PyVal)
    (ttl_seconds : ℤ := 3600) : CacheState :=
  ⟨(key, v) :: st.cache, (key, now + ttl_seconds) :: st.ttl⟩

/-- Embedding of the guard `cached = _get_cache(key); if cached:
return cached` appearing verbatim in every adapter: a stored value is
served only when it is truthy; a falsy stored value (and an expired or
absent one) falls through to the upstream call. -/
def hitValue (st : CacheState) (now : ℤ) (key : String) : Option PyVal :=
  match get_cache st now key with
  | some v => if truthy v then some v else none
  | Option.none => none

/-- What the single upstream HTTP request of an adapter would answer
if performed: `fail` covers transport errors, timeouts, non-2xx
statuses (raised by `raise_for_status`) and unparseable bodies; `ok
body` is a 2xx response whose JSON body parsed to `body`. -/
inductive Upstream where
  | fail : Upstream
  | ok : PyVal → Upstream

/-- Outcome of one adapter invocation: the Python value returned to
the caller, the cache state afterwards, and whether the upstream HTTP
request was actually dispatched. -/
structure FetchOut where
  result : PyVal
  state : CacheState
  called : Bool

/-- Embedding of the rule of Python `round(x, p)`: rounding to `p`
decimal places with ties to even, computed here on the exact rational
value of `x`.  CPython applies the rule to the IEEE-double value of
`x`, which can sit off the exact rational when the preceding float
arithmetic was inexact; the theorems below therefore evaluate only
fields whose double arithmetic is exact, where the two computations
coincide. -/
def roundTo (p : Nat) (q : ℚ) : ℚ :=
  let m : ℚ := (10 : ℚ) ^ p
  let n : ℤ := ⌊q * m⌋
  let f : ℚ := q * m - (n : ℚ)
  (if f < 1/2 then (n : ℚ)
   else if 1/2 < f then ((n + 1 : ℤ) : ℚ)
   else if n % 2 = 0 then (n : ℚ) else ((n + 1 : ℤ) : ℚ)) / m

/-- Embedding of `calculate_carbon_footprint`: pure arithmetic over
the four inputs with the fixed emission factors and offset constants
of the source, returning the nested result dict.  The kilogram totals
and the breakdown are exact in IEEE doubles at the inputs the claims
evaluate, so this rational model matches CPython there; the derived
`total_tons_co2e` and `equivalents` fields involve inexact division,
where the exact-rational idealization can differ from the float
result in the last decimal (at (1000, 0, 50, 5000) CPython returns
1.865 for the tons field, whereas the exact rational 1.8655 rounds to
1.866), so no theorem asserts those derived fields. -/
def calculate_carbon_footprint (electricity_kwh : ℚ := 0)
    (natural_gas_therms : ℚ := 0) (fuel_liters : ℚ := 0)
    (flights_km : ℚ := 0) : PyVal :=
  let electricity_co2 := electricity_kwh * 0.475
  let gas_co2 := natural_gas_therms * 5.3
  let fuel_co2 := fuel_liters * 2.31
  let flight_co2 := flights_km * 0.255
  let total := electricity_co2 + gas_co2 + fuel_co2 + flight_co2
  .dict [("total_kg_co2e", .num (roundTo 2 total)),
    ("total_tons_co2e", .num (roundTo 3 (total / 1000))),
    ("breakdown", .dict [
      ("electricity_kg_co2e", .num (roundTo 2 electricity_co2)),
      ("natural_gas_kg_co2e", .num (roundTo 2 gas_co2)),
      ("fuel_kg_co2e", .num (roundTo 2 fuel_co2)),
      ("flights_kg_co2e", .num (roundTo 2 flight_co2))]),
    ("equivalents", .dict [
      ("trees_needed_to_offset", .num (roundTo 1 (total / 21.77))),
      ("cars_off_road_days", .num (roundTo 1 (total / 11.2)))])]

/-- Python's `sorted` on a list of strings (ascending code-point
order, stable). -/
def sortStrings (l : List String) : List String := List.insertionSort (· ≤ ·) l

/-- Default symbol list of `get_exchange_rates` (used when the
`symbols` argument is `None`). -/
def exchange_default_symbols : List String := ["KES", "EUR", "GBP", "NGN", "TZS", "UGX"]

/-- Cache key of `get_exchange_rates`:
`f"exchange_rates:{base}:{','.join(sorted(symbols))}"`. -/
def exchange_rates_key (base : String) (symbols : List String) : String :=
  "exchange_rates:" ++ base ++ ":" ++ String.intercalate "," (sortStrings symbols)

/-- Cache key of `get_crypto_price`: `f"crypto:{coin_id}:{vs_currency}"`. -/
def crypto_key (coin_id vs_currency : String) : String :=
  "crypto:" ++ coin_id ++ ":" ++ vs_currency

/-- Cache key of `get_weather` over the rendered coordinates:
`f"weather:{latitude},{longitude}"`. -/
def weather_key (latS lonS : String) : String :=
  "weather:" ++ latS ++ "," ++ lonS

/-- Cache key of `geocode_address`: `f"geocode:{address}"`. -/
def geocode_key (address : String) : String := "geocode:" ++ address

/-- Embedding of `str.lower()` on the ASCII country names sent to the
REST Countries API: lower-case every character. -/
def strLower (s : String) : String := String.mk (s.data.map Char.toLower)

/-- Cache key of `get_country_info`:
`f"country:{country_name.lower()}"`. -/
def country_key (country_name : String) : String :=
  "country:" ++ strLower country_name

/-- Cache key of `get_public_holidays`:
`f"holidays:{country_code}:{year}"`. -/
def holidays_key (country_code : String) (year : Nat) : String :=
  "holidays:" ++ country_code ++ ":" ++ toString year

/-- Cache key of `search_books`: `f"book_search:{query}:{limit}"`. -/
def book_search_key (query : String) (limit : Nat) : String :=
  "book_search:" ++ query ++ ":" ++ toString limit

/-- Cache key of `generate_random_users`:
`f"random_users:{count}:{nationality}:{...strftime('%Y%m%d')}"`, with
the rendered calendar-day stamp taken as a parameter. -/
def random_users_key (count : Nat) (nationality day_stamp : String) : String :=
  "random_users:" ++ toString count ++ ":" ++ nationality ++ ":" ++ day_stamp

/-- Cache key of `get_ip_geolocation`:
`f"ip_geo:{...strftime('%Y%m%d%H')}"`, with the rendered hour stamp
taken as a parameter. -/
def ip_geo_key (hour_stamp : String) : String := "ip_geo:" ++ hour_stamp

/-- Python `d.get(k, default)` on a dict. -/
def dictGetD (d : List (String × PyVal)) (k : String) (dflt : PyVal) : PyVal :=
  (lookup d k).getD dflt

/-- Python subscription `x[k]` with a string key: succeeds only on a
dict containing the key; any other shape raises. -/
def pySub : PyVal → String → Option PyVal
  | .dict d, k => lookup d k
  | _, _ => none

/-- Python subscription `x[0]`: first element of a nonempty list or
first character of a nonempty string; anything else raises. -/
def pyIndex0 : PyVal → Option PyVal
  | .list (x :: _) => some x
  | .list [] => none
  | .str s =>
    match s.data with
    | c :: _ => some (.str (String.mk [c]))
    | [] => none
  | _ => none

/-- Python iteration `for x in v`: a list yields its elements, a dict
its keys, a string its characters; other values raise. -/
def pyIter : PyVal → Option (List PyVal)
  | .list l => some l
  | .dict d => some (d.map fun p => .str p.1)
  | .str s => some (s.data.map fun c => .str (String.mk [c]))
  | _ => none

/-- Numeric value of an all-digit character list (empty list yields
0; the callers decide whether emptiness is allowed). -/
def digitsNat? (cs : List Char) : Option Nat :=
  cs.foldl (fun acc c =>
    match acc with
    | some a => if c.isDigit then some (a * 10 + (c.toNat - 48)) else none
    | none => none) (some 0)

/-- Embedding of `float(s)` on the decimal literals these upstream
APIs return (optional sign, integer digits, optional fractional
digits); other forms Python would accept (exponents, inf or nan,
surrounding whitespace) do not occur in these payloads. -/
def pyFloatOfString? (s : String) : Option ℚ :=
  let (neg, t) :=
    if s.startsWith "-" then (true, s.drop 1)
    else if s.startsWith "+" then (false, s.drop 1)
    else (false, s)
  let q? : Option ℚ :=
    match t.splitOn "." with
    | [i] =>
      if i.isEmpty then none
      else (digitsNat? i.data).map (fun n => (n : ℚ))
    | [i, f] =>
      if i.isEmpty && f.isEmpty then none
      else
        match digitsNat? i.data, digitsNat? f.data with
        | some ip, some fp => some ((ip : ℚ) + (fp : ℚ) / (10 : ℚ) ^ f.length)
        | _, _ => none
    | _ => none
  q?.map (fun q => if neg then -q else q)

/-- Embedding of `float(x)`: numbers pass through, decimal strings
are parsed, anything else (None, lists, dicts) raises. -/
def pyFloat? : PyVal → Option ℚ
  | .num q => some q
  | .str s => pyFloatOfString? s
  | _ => none

/-- Sequence a fallible per-element reshaping over a list (the body of
the result-building `for` loops: one raised element aborts the whole
adapter call). -/
def mapOpt (f : PyVal → Option PyVal) : List PyVal → Option (List PyVal)
  | [] => some []
  | x :: xs =>
    match f x, mapOpt f xs with
    | some y, some ys => some (y :: ys)
    | _, _ => none

/-- Embedding of `get_exchange_rates`: truthy-guarded cache lookup,
then the upstream call; on success `data.get("rates", {})` is cached
for 3600 seconds and returned, on any exception (transport error,
non-2xx, bad body shape) the adapter returns `{}` without caching. -/
def get_exchange_rates (base : String) (symbols? : Option (List String))
    (st : CacheState) (now : ℤ) (up : Upstream) : FetchOut :=
  let symbols := symbols?.getD exchange_default_symbols
  let key := exchange_rates_key base symbols
  match hitValue st now key with
  | some v => ⟨v, st, false⟩
  | none =>
    match up with
    | .fail => ⟨.dict [], st, true⟩
    | .ok (.dict d) =>
      let rates := dictGetD d "rates" (.dict [])
      ⟨rates, set_cache st now key rates 3600, true⟩
    | .ok _ => ⟨.dict [], st, true⟩

/-- Embedding of `get_crypto_price`: on success
`data.get(coin_id, {}).get(vs_currency)` is returned, and cached for
300 seconds only when truthy; a missing coin or currency yields
`None`, as does any exception. -/
def get_crypto_price (coin_id vs_currency : String)
    (st : CacheState) (now : ℤ) (up : Upstream) : FetchOut :=
  let key := crypto_key coin_id vs_currency
  match hitValue st now key with
  | some v => ⟨v, st, false⟩
  | none =>
    match up with
    | .fail => ⟨.none, st, true⟩
    | .ok (.dict d) =>
      match dictGetD d coin_id (.dict []) with
      | .dict d2 =>
        match lookup d2 vs_currency with
        | some p =>
          if truthy p then ⟨p, set_cache st now key p 300, true⟩
          else ⟨p, st, true⟩
        | none => ⟨.none, st, true⟩
      | _ => ⟨.none, st, true⟩
    | .ok _ => ⟨.none, st, true⟩

/-- Embedding of `get_weather`: on success the whole
`data.get("current_weather", {})` object is returned, and cached for
1800 seconds only when truthy; any exception yields `None`. -/
def get_weather (latS lonS : String)
    (st : CacheState) (now : ℤ) (up : Upstream) : FetchOut :=
  let key := weather_key latS lonS
  match hitValue st now key with
  | some v => ⟨v, st, false⟩
  | none =>
    match up with
    | .fail => ⟨.none, st, true⟩
    | .ok (.dict d) =>
      let weather := dictGetD d "current_weather" (.dict [])
      if truthy weather then ⟨weather, set_cache st now key weather 1800, true⟩
      else ⟨weather, st, true⟩
    | .ok _ => ⟨.none, st, true⟩

/-- Embedding of `geocode_address` (value part; the `asyncio.sleep(1)`
timing is modelled by `geocode_dispatch_time`): a nonempty result
array is reshaped to lat, lon and display_name and cached for 86400
seconds; an empty array yields `None`, as does any exception. -/
def geocode_address (address : String)
    (st : CacheState) (now : ℤ) (up : Upstream) : FetchOut :=
  let key := geocode_key address
  match hitValue st now key with
  | some v => ⟨v, st, false⟩
  | none =>
    match up with
    | .fail => ⟨.none, st, true⟩
    | .ok (.list (first :: _)) =>
      match first with
      | .dict d =>
        match pyFloat? ((lookup d "lat").getD .none),
              pyFloat? ((lookup d "lon").getD .none) with
        | some la, some lo =>
          let location : PyVal := .dict [("lat", .num la), ("lon", .num lo),
            ("display_name", dictGetD d "display_name" .none)]
          ⟨location, set_cache st now key location 86400, true⟩
        | _, _ => ⟨.none, st, true⟩
      | _ => ⟨.none, st, true⟩
    | .ok (.list []) => ⟨.none, st, true⟩
    | .ok _ => ⟨.none, st, true⟩

/-- Timing model of the geocode upstream dispatch: on a cache miss the
task runs `await asyncio.sleep(1)` and then issues the request, so a
request arriving at time `t` dispatches at `t + 1`; the module keeps
no `lastCallAt` state, so concurrent tasks sleep independently of one
another. -/
def geocode_dispatch_time (arrival : ℤ) : ℤ := arrival + 1

/-- Wall-clock span between the earliest and the latest upstream
dispatch of a batch of concurrently arriving geocode requests. -/
def geocode_concurrent_span (arrivals : List ℤ) : ℤ :=
  match arrivals.map geocode_dispatch_time with
  | [] => 0
  | d :: ds => ds.foldl max d - ds.foldl min d

/-- Embedding of the reshaping of one country record inside
`get_country_info` (`None` result means a raised exception). -/
def countryNorm (d : List (String × PyVal)) : Option PyVal :=
  match dictGetD d "name" (.dict []), dictGetD d "flags" (.dict []) with
  | .dict nd, .dict fd =>
    let capital? : Option PyVal :=
      match lookup d "capital" with
      | some cv => if truthy cv then pyIndex0 cv else some (.str "")
      | none => some (.str "")
    match capital? with
    | some capital => some (.dict [
        ("name", (lookup nd "common").getD .none),
        ("official_name", (lookup nd "official").getD .none),
        ("capital", capital),
        ("population", dictGetD d "population" .none),
        ("area", dictGetD d "area" .none),
        ("region", dictGetD d "region" .none),
        ("subregion", dictGetD d "subregion" .none),
        ("flag", (lookup fd "png").getD .none),
        ("currencies", dictGetD d "currencies" (.dict [])),
        ("languages", dictGetD d "languages" (.dict [])),
        ("timezones", dictGetD d "timezones" (.list [])),
        ("code", dictGetD d "cca2" .none)])
    | none => none
  | _, _ => none

/-- Embedding of `get_country_info`: the first record of a nonempty
result array is reshaped and cached for 604800 seconds; an empty
array yields `None`, as does any exception. -/
def get_country_info (country_name : String)
    (st : CacheState) (now : ℤ) (up : Upstream) : FetchOut :=
  let key := country_key country_name
  match hitValue st now key with
  | some v => ⟨v, st, false⟩
  | none =>
    match up with
    | .fail => ⟨.none, st, true⟩
    | .ok (.list (first :: _)) =>
      match first with
      | .dict d =>
        match countryNorm d with
        | some result => ⟨result, set_cache st now key result 604800, true⟩
        | none => ⟨.none, st, true⟩
      | _ => ⟨.none, st, true⟩
    | .ok (.list []) => ⟨.none, st, true⟩
    | .ok _ => ⟨.none, st, true⟩

/-- Embedding of `get_public_holidays`: whatever JSON body a 2xx
response carries is cached for 86400 seconds and returned as is (an
empty holiday array included); any exception yields `None`. -/
def get_public_holidays (country_code : String) (year : Nat)
    (st : CacheState) (now : ℤ) (up : Upstream) : FetchOut :=
  let key := holidays_key country_code year
  match hitValue st now key with
  | some v => ⟨v, st, false⟩
  | none =>
    match up with
    | .fail => ⟨.none, st, true⟩
    | .ok body => ⟨body, set_cache st now key body 86400, true⟩

/-- Embedding of the per-document reshaping inside `search_books`
(`None` result means a raised exception). -/
def normBookDoc : PyVal → Option PyVal
  | .dict d =>
    let isbn? : Option PyVal :=
      match lookup d "isbn" with
      | some v => if truthy v then pyIndex0 v else some (.str "")
      | none => some (.str "")
    match isbn? with
    | some isbn => some (.dict [
        ("title", dictGetD d "title" .none),
        ("authors", dictGetD d "author_name" (.list [])),
        ("first_publish_year", dictGetD d "first_publish_year" .none),
        ("isbn", isbn),
        ("key", dictGetD d "key" .none)])
    | none => none
  | _ => none

/-- Embedding of `search_books`: the reshaped document list is cached
for 3600 seconds unconditionally (an empty list included) and
returned; any exception yields `None`. -/
def search_books (query : String) (limit : Nat)
    (st : CacheState) (now : ℤ) (up : Upstream) : FetchOut :=
  let key := book_search_key query limit
  match hitValue st now key with
  | some v => ⟨v, st, false⟩
  | none =>
    match up with
    | .fail => ⟨.none, st, true⟩
    | .ok (.dict d) =>
      match pyIter (dictGetD d "docs" (.list [])) with
      | some docs =>
        match mapOpt normBookDoc docs with
        | some books => ⟨.list books, set_cache st now key (.list books) 3600, true⟩
        | none => ⟨.none, st, true⟩
      | none => ⟨.none, st, true⟩
    | .ok _ => ⟨.none, st, true⟩

/-- Name part of the per-user reshaping inside
`generate_random_users`: `f"{user['name']['first']} {user['name']['last']}"`;
the upstream name fields are strings, which is the domain on which
the joining f-string is modelled (`None` means a raised exception). -/
def normUserName (u : PyVal) : Option PyVal :=
  match pySub u "name" with
  | some nameF =>
    match pySub nameF "first", pySub nameF "last" with
    | some (.str a), some (.str b) => some (.str (a ++ " " ++ b))
    | _, _ => none
  | none => none

/-- Location part of the per-user reshaping inside
`generate_random_users`. -/
def normUserLoc (u : PyVal) : Option PyVal :=
  match pySub u "location" with
  | some loc =>
    match pySub loc "city", pySub loc "state", pySub loc "country" with
    | some city, some stateV, some countryV =>
      some (.dict [("city", city), ("state", stateV), ("country", countryV)])
    | _, _, _ => none
  | none => none

/-- Date-of-birth part (`dob.date` and `dob.age`) of the per-user
reshaping inside `generate_random_users`. -/
def normUserDob (u : PyVal) : Option (PyVal × PyVal) :=
  match pySub u "dob" with
  | some dob =>
    match pySub dob "date", pySub dob "age" with
    | some d, some a => some (d, a)
    | _, _ => none
  | none => none

/-- Picture part (`picture.large`) of the per-user reshaping inside
`generate_random_users`. -/
def normUserPic (u : PyVal) : Option PyVal :=
  match pySub u "picture" with
  | some pic => pySub pic "large"
  | none => none

/-- Embedding of the per-user reshaping inside
`generate_random_users` (`None` means a raised exception, e.g. a
missing key). -/
def normUser (u : PyVal) : Option PyVal :=
  match normUserName u, pySub u "gender", pySub u "email", pySub u "phone" with
  | some fullName, some gender, some email, some phone =>
    match normUserLoc u, normUserDob u, normUserPic u with
    | some loc, some (dobDate, age), some large =>
      some (.dict [("name", fullName), ("gender", gender), ("email", email),
        ("phone", phone), ("location", loc), ("dob", dobDate), ("age", age),
        ("picture", large)])
    | _, _, _ => none
  | _, _, _, _ => none

/-- Embedding of `generate_random_users`: the reshaped user list is
cached for 3600 seconds under a key that embeds the current calendar
day and returned; any exception yields `None`. -/
def generate_random_users (count : Nat) (nationality day_stamp : String)
    (st : CacheState) (now : ℤ) (up : Upstream) : FetchOut :=
  let key := random_users_key count nationality day_stamp
  match hitValue st now key with
  | some v => ⟨v, st, false⟩
  | none =>
    match up with
    | .fail => ⟨.none, st, true⟩
    | .ok (.dict d) =>
      match pyIter (dictGetD d "results" (.list [])) with
      | some items =>
        match mapOpt normUser items with
        | some users => ⟨.list users, set_cache st now key (.list users) 3600, true⟩
        | none => ⟨.none, st, true⟩
      | none => ⟨.none, st, true⟩
    | .ok _ => ⟨.none, st, true⟩

/-- Embedding of `get_ip_geolocation`: the reshaped location dict is
cached for 3600 seconds under a key that embeds the current hour and
returned; any exception yields `None`. -/
def get_ip_geolocation (hour_stamp : String)
    (st : CacheState) (now : ℤ) (up : Upstream) : FetchOut :=
  let key := ip_geo_key hour_stamp
  match hitValue st now key with
  | some v => ⟨v, st, false⟩
  | none =>
    match up with
    | .fail => ⟨.none, st, true⟩
    | .ok (.dict d) =>
      let result : PyVal := .dict [("ip", dictGetD d "ip" .none),
        ("city", dictGetD d "city" .none),
        ("region", dictGetD d "region" .none),
        ("country", dictGetD d "country_name" .none),
        ("country_code", dictGetD d "country_code" .none),
        ("latitude", dictGetD d "latitude" .none),
        ("longitude", dictGetD d "longitude" .none),
        ("timezone", dictGetD d "timezone" .none),
        ("currency", dictGetD d "currency" .none)]
      ⟨result, set_cache st now key result 3600, true⟩
    | .ok _ => ⟨.none, st, true⟩

/-- HTTP-level outcome produced by the route layer of
`external_data.py`. -/
inductive HttpOut where
  | success : PyVal → HttpOut
  | notFound : HttpOut
  | serverError : HttpOut

/-- Embedding of the `/api/external/exchange-rates` route handler:
split the comma-separated `symbols` query parameter (falling back to
the default list), call the adapter, and wrap whatever it returns in
a 200 response envelope. -/
def fetch_exchange_rates_route (base : String) (symbols_param : Option String)
    (st : CacheState) (now : ℤ) (up : Upstream) : HttpOut × CacheState :=
  let symbol_list :=
    match symbols_param with
    | some s => if s = "" then exchange_default_symbols else s.splitOn ","
    | none => exchange_default_symbols
  let o := get_exchange_rates base (some symbol_list) st now up
  (.success (.dict [("base", .str base), ("rates", o.result),
    ("source", .str "exchangerate.host")]), o.state)

/-- Embedding of the `/api/external/crypto/(coin_id)` route handler:
a `None` price maps to a 404 response, anything else to a 200
response envelope. -/
def fetch_crypto_price_route (coin_id vs_currency : String)
    (st : CacheState) (now : ℤ) (up : Upstream) : HttpOut × CacheState :=
  let o := get_crypto_price coin_id vs_currency st now up
  match o.result with
  | .none => (.notFound, o.state)
  | p => (.success (.dict [("coin_id", .str coin_id), ("price", p),
      ("currency", .str vs_currency), ("source", .str "coingecko.com")]), o.state)

/-- Appending different suffixes to the same string yields different
strings. -/
theorem append_right_ne {a b : String} (p : String) (h : a ≠ b) : p ++ a ≠ p ++ b := by
  intro he
  apply h
  apply String.ext
  have h2 := congrArg String.data he
  simp only [String.data_append] at h2
  exact List.append_cancel_left h2

/-- Sorting identifies permuted string lists. -/
theorem sortStrings_eq_of_perm {l1 l2 : List String} (h : l1.Perm l2) :
    sortStrings l1 = sortStrings l2 :=
  List.eq_of_perm_of_sorted
    ((List.perm_insertionSort _ l1).trans (h.trans (List.perm_insertionSort _ l2).symm))
    (List.sorted_insertionSort _ l1) (List.sorted_insertionSort _ l2)

/-- A key that was never stored is a miss at every time. -/
theorem hitValue_of_no_entry (st : CacheState) (now : ℤ) (k : String)
    (h : lookup st.cache k = none) : hitValue st now k = none := by
  cases hy : lookup st.ttl k <;> simp [hitValue, get_cache, h, hy]

/-- Reading back a freshly stored key within its TTL applies exactly
the truthiness guard to the stored value. -/
theorem hitValue_set_self (st : CacheState) (t now T : ℤ) (k : String) (v : PyVal)
    (h : now < t + T) :
    hitValue (set_cache st t k v T) now k = if truthy v then some v else none := by
  simp [hitValue, get_cache, set_cache, lookup, h]

/-- Storing under one key leaves every other key untouched. -/
theorem lookup_set_cache_other (st : CacheState) (t T : ℤ) (k k2 : String) (v : PyVal)
    (h : k ≠ k2) : lookup (set_cache st t k v T).cache k2 = lookup st.cache k2 := by
  simp [set_cache, lookup, h]

/-- On a truthy cache hit the exchange-rates adapter returns the
stored value unchanged and does not touch the upstream. -/
theorem get_exchange_rates_hit (base : String) (symbols : List String)
    (st : CacheState) (now : ℤ) (up : Upstream) (v : PyVal)
    (h : hitValue st now (exchange_rates_key base symbols) = some v) :
    get_exchange_rates base (some symbols) st now up = ⟨v, st, false⟩ := by
  simp [get_exchange_rates, h]

/-- On a truthy cache hit the book-search adapter returns the stored
value unchanged and does not touch the upstream. -/
theorem search_books_hit (q : String) (limit : Nat)
    (st : CacheState) (now : ℤ) (up : Upstream) (v : PyVal)
    (h : hitValue st now (book_search_key q limit) = some v) :
    search_books q limit st now up = ⟨v, st, false⟩ := by
  simp [search_books, h]

/-- On a cache miss the exchange-rates adapter always dispatches the
upstream request, whatever the upstream then does. -/
theorem get_exchange_rates_called_of_miss (base : String) (symbols : List String)
    (st : CacheState) (now : ℤ) (up : Upstream)
    (h0 : hitValue st now (exchange_rates_key base symbols) = none) :
    (get_exchange_rates base (some symbols) st now up).called = true := by
  simp only [get_exchange_rates, Option.getD_some, h0]
  cases up with
  | fail => rfl
  | ok body => cases body <;> rfl

/-- On a cache miss the book-search adapter always dispatches the
upstream request, whatever the upstream then does. -/
theorem search_books_called_of_miss (q : String) (limit : Nat)
    (st : CacheState) (now : ℤ) (up : Upstream)
    (h0 : hitValue st now (book_search_key q limit) = none) :
    (search_books q limit st now up).called = true := by
  simp only [search_books, h0]
  cases up with
  | fail => rfl
  | ok body =>
    cases body with
    | dict d =>
      cases hI : pyIter (dictGetD d "docs" (.list [])) with
      | none => simp [hI]
      | some docs =>
        cases hM : mapOpt normBookDoc docs <;> simp [hI, hM]
    | none => rfl
    | num q2 => rfl
    | str s => rfl
    | list l => rfl

/-- On a cache miss the crypto adapter either returns None leaving
the state unchanged, returns a falsy price leaving the state
unchanged, or returns a truthy price and caches it for 300 seconds;
the upstream is dispatched in every case. -/
theorem get_crypto_price_miss_cases (coin vs : String) (st : CacheState)
    (now : ℤ) (up : Upstream)
    (h0 : hitValue st now (crypto_key coin vs) = none) :
    get_crypto_price coin vs st now up = ⟨.none, st, true⟩ ∨
    (∃ p, truthy p = false ∧ get_crypto_price coin vs st now up = ⟨p, st, true⟩) ∨
    (∃ p, truthy p = true ∧
      get_crypto_price coin vs st now up =
        ⟨p, set_cache st now (crypto_key coin vs) p 300, true⟩) := by
  simp only [get_crypto_price, h0]
  cases up with
  | fail => exact .inl rfl
  | ok body =>
    cases body with
    | dict d =>
      cases hdg : dictGetD d coin (.dict []) with
      | dict d2 =>
        cases hl : lookup d2 vs with
        | none => simp [hdg, hl]
        | some p =>
          cases ht : truthy p with
          | false =>
            refine .inr (.inl ⟨p, ht, ?_⟩)
            simp [hdg, hl, ht]
          | true =>
            refine .inr (.inr ⟨p, ht, ?_⟩)
            simp [hdg, hl, ht]
      | none => simp [hdg]
      | num q2 => simp [hdg]
      | str s2 => simp [hdg]
      | list l2 => simp [hdg]
    | none => exact .inl rfl
    | num q2 => exact .inl rfl
    | str s2 => exact .inl rfl
    | list l2 => exact .inl rfl

/-- On a cache miss the crypto adapter always dispatches the upstream
request. -/
theorem get_crypto_price_called_of_miss (coin vs : String) (st : CacheState)
    (now : ℤ) (up : Upstream)
    (h0 : hitValue st now (crypto_key coin vs) = none) :
    (get_crypto_price coin vs st now up).called = true := by
  rcases get_crypto_price_miss_cases coin vs st now up h0 with heq | ⟨p, _, heq⟩ | ⟨p, _, heq⟩ <;>
    rw [heq]

/-- On a cache miss the random-users adapter dispatches the upstream
and either leaves the state unchanged or stores one value under its
own datestamped key with TTL 3600. -/
theorem generate_random_users_miss_spec (count : Nat) (nat1 ds : String)
    (st : CacheState) (now : ℤ) (up : Upstream)
    (h0 : hitValue st now (random_users_key count nat1 ds) = none) :
    (generate_random_users count nat1 ds st now up).called = true ∧
    ((generate_random_users count nat1 ds st now up).state = st ∨
     ∃ v, (generate_random_users count nat1 ds st now up).state =
       set_cache st now (random_users_key count nat1 ds) v 3600) := by
  simp only [generate_random_users, h0]
  cases up with
  | fail => exact ⟨rfl, .inl rfl⟩
  | ok body =>
    cases body with
    | dict d =>
      cases hI : pyIter (dictGetD d "results" (.list [])) with
      | none => simp [hI]
      | some items =>
        cases hM : mapOpt normUser items with
        | none => simp [hI, hM]
        | some users =>
          refine ⟨by simp [hI, hM], .inr ⟨.list users, by simp [hI, hM]⟩⟩
    | none => exact ⟨rfl, .inl rfl⟩
    | num q2 => exact ⟨rfl, .inl rfl⟩
    | str s2 => exact ⟨rfl, .inl rfl⟩
    | list l2 => exact ⟨rfl, .inl rfl⟩

/-- On a cache miss the IP-geolocation adapter dispatches the
upstream and either leaves the state unchanged or stores one value
under its own hour-stamped key with TTL 3600. -/
theorem get_ip_geolocation_miss_spec (hs : String)
    (st : CacheState) (now : ℤ) (up : Upstream)
    (h0 : hitValue st now (ip_geo_key hs) = none) :
    (get_ip_geolocation hs st now up).called = true ∧
    ((get_ip_geolocation hs st now up).state = st ∨
     ∃ v, (get_ip_geolocation hs st now up).state =
       set_cache st now (ip_geo_key hs) v 3600) := by
  simp only [get_ip_geolocation, h0]
  cases up with
  | fail => exact ⟨rfl, .inl rfl⟩
  | ok body =>
    cases body with
    | dict d => exact ⟨rfl, .inr ⟨_, rfl⟩⟩
    | none => exact ⟨rfl, .inl rfl⟩
    | num q2 => exact ⟨rfl, .inl rfl⟩
    | str s2 => exact ⟨rfl, .inl rfl⟩
    | list l2 => exact ⟨rfl, .inl rfl⟩

/-- Claim C1, counterexample: a 2xx upstream body with no rates key
makes the exchange-rates adapter store the empty dict under the
derived key with TTL 3600, and a repeated fetch 10 seconds later,
well within that TTL, invokes the upstream again, because the falsy
cached value fails the truthiness guard; so a fetch within T seconds
of a store does not always skip the adapter. -/
theorem cached_empty_rates_dict_refetches_within_ttl :
    (get_exchange_rates "USD" (some ["EUR"]) emptyCache 0 (.ok (.dict []))).state =
      set_cache emptyCache 0 (exchange_rates_key "USD" ["EUR"]) (.dict []) 3600 ∧
    (get_exchange_rates "USD" (some ["EUR"])
      ((get_exchange_rates "USD" (some ["EUR"]) emptyCache 0 (.ok (.dict []))).state)
      10 (.ok (.dict []))).called = true := by
  constructor
  · rfl
  · rfl

/-- Claim C1, amended: a cache key previously stored with a truthy
value and TTL T is, within T seconds, served from the cache: the
adapter returns exactly the stored value, leaves the cache state
unchanged and does not invoke the upstream (shown for the
exchange-rates and book-search adapters, for every upstream
behaviour). -/
theorem truthy_cache_hit_skips_upstream
    (base : String) (symbols : List String) (q : String) (limit : Nat)
    (st : CacheState) (t now T : ℤ) (v w : PyVal) (up : Upstream)
    (hv : truthy v = true) (hw : truthy w = true) (h : now < t + T) :
    get_exchange_rates base (some symbols)
        (set_cache st t (exchange_rates_key base symbols) v T) now up =
      ⟨v, set_cache st t (exchange_rates_key base symbols) v T, false⟩ ∧
    search_books q limit (set_cache st t (book_search_key q limit) w T) now up =
      ⟨w, set_cache st t (book_search_key q limit) w T, false⟩ := by
  constructor
  · exact get_exchange_rates_hit _ _ _ _ _ _
      (by rw [hitValue_set_self _ _ _ _ _ _ h, hv]; rfl)
  · exact search_books_hit _ _ _ _ _ _
      (by rw [hitValue_set_self _ _ _ _ _ _ h, hw]; rfl)

/-- Claim C1, witness: concrete truthy values stored at t = 0 with
TTL 3600 are served unchanged at t = 10 without an upstream call. -/
theorem truthy_cache_hit_skips_upstream_witness :
    truthy (.dict [("EUR", .num 1)]) = true ∧
    truthy (.list [.str "t"]) = true ∧
    ((10 : ℤ) < 0 + 3600) ∧
    (get_exchange_rates "USD" (some ["EUR"])
        (set_cache emptyCache 0 (exchange_rates_key "USD" ["EUR"])
          (.dict [("EUR", .num 1)]) 3600) 10 .fail =
      ⟨.dict [("EUR", .num 1)],
       set_cache emptyCache 0 (exchange_rates_key "USD" ["EUR"])
         (.dict [("EUR", .num 1)]) 3600, false⟩ ∧
     search_books "lean" 10
        (set_cache emptyCache 0 (book_search_key "lean" 10) (.list [.str "t"]) 3600)
        10 .fail =
      ⟨.list [.str "t"],
       set_cache emptyCache 0 (book_search_key "lean" 10) (.list [.str "t"]) 3600,
       false⟩) :=
  ⟨rfl, rfl, by decide,
   truthy_cache_hit_skips_upstream "USD" ["EUR"] "lean" 10 emptyCache 0 10 3600
     (.dict [("EUR", .num 1)]) (.list [.str "t"]) .fail rfl rfl (by decide)⟩

/-- Claim C2, counterexample: with an empty cache, an upstream
transport failure is not surfaced as an HTTP-500-equivalent: the
exchange-rates route wraps the fallback empty dict in a 200 success
payload, and the crypto route maps the fallback None to 404 NotFound. -/
theorem upstream_failure_surfaces_as_success_and_notfound :
    (fetch_exchange_rates_route "USD" none emptyCache 0 .fail).1 =
      .success (.dict [("base", .str "USD"), ("rates", .dict []),
        ("source", .str "exchangerate.host")]) ∧
    (fetch_crypto_price_route "bitcoin" "usd" emptyCache 0 .fail).1 = .notFound := by
  exact ⟨rfl, rfl⟩

/-- Claim C2, amended: every adapter catches upstream transport
errors, timeouts and non-2xx statuses, so no raw exception crosses
the adapter boundary; but the failure is folded into a fallback
return value rather than a retryable server error: the
exchange-rates route surfaces it as a 200 success payload carrying an
empty rates dict, and the crypto route surfaces it as 404 NotFound;
in both cases the cache is left unchanged. -/
theorem upstream_failure_fallback_classification
    (base coin vs : String) (st : CacheState) (now : ℤ)
    (h1 : hitValue st now (exchange_rates_key base exchange_default_symbols) = none)
    (h2 : hitValue st now (crypto_key coin vs) = none) :
    fetch_exchange_rates_route base none st now .fail =
      (.success (.dict [("base", .str base), ("rates", .dict []),
        ("source", .str "exchangerate.host")]), st) ∧
    fetch_crypto_price_route coin vs st now .fail = (.notFound, st) := by
  constructor
  · simp [fetch_exchange_rates_route, get_exchange_rates, h1]
  · simp [fetch_crypto_price_route, get_crypto_price, h2]

/-- Claim C2, witness: the amended classification evaluated on the
empty cache for the default symbol list and for bitcoin/usd. -/
theorem upstream_failure_fallback_classification_witness :
    hitValue emptyCache 0 (exchange_rates_key "USD" exchange_default_symbols) = none ∧
    hitValue emptyCache 0 (crypto_key "bitcoin" "usd") = none ∧
    (fetch_exchange_rates_route "USD" none emptyCache 0 .fail =
       (.success (.dict [("base", .str "USD"), ("rates", .dict []),
         ("source", .str "exchangerate.host")]), emptyCache) ∧
     fetch_crypto_price_route "bitcoin" "usd" emptyCache 0 .fail =
       (.notFound, emptyCache)) :=
  ⟨rfl, rfl,
   upstream_failure_fallback_classification "USD" "bitcoin" "usd" emptyCache 0 rfl rfl⟩

/-- Claim C3, counterexample: the base currency is interpolated into
the cache key without case normalization, so the two logically
identical requests of the claim derive different keys. -/
theorem base_currency_case_changes_cache_key :
    exchange_rates_key "usd" ["EUR", "GBP"] ≠ exchange_rates_key "USD" ["GBP", "EUR"] := by
  decide

/-- Claim C3, amended: with the same base string, any permutation of
the symbol list derives the same cache key (the list is sorted before
joining), and country names differing only in case derive the same
country key (they are lower-cased); the base currency code itself is
not case-normalized. -/
theorem symbol_order_and_country_case_normalized
    (base : String) (s1 s2 : List String) (c1 c2 : String)
    (hp : s1.Perm s2) (hc : strLower c1 = strLower c2) :
    exchange_rates_key base s1 = exchange_rates_key base s2 ∧
    country_key c1 = country_key c2 := by
  constructor
  · unfold exchange_rates_key
    rw [sortStrings_eq_of_perm hp]
  · unfold country_key
    rw [hc]

/-- Claim C3, witness: permuted symbol lists under the same base and
case variants of Kenya share their keys. -/
theorem symbol_order_and_country_case_normalized_witness :
    (["EUR", "GBP"] : List String).Perm ["GBP", "EUR"] ∧
    strLower "Kenya" = strLower "KENYA" ∧
    (exchange_rates_key "USD" ["EUR", "GBP"] = exchange_rates_key "USD" ["GBP", "EUR"] ∧
     country_key "Kenya" = country_key "KENYA") :=
  ⟨by decide, by decide,
   symbol_order_and_country_case_normalized "USD" ["EUR", "GBP"] ["GBP", "EUR"]
     "Kenya" "KENYA" (by decide) (by decide)⟩

/-- Claim C4 (code bug): the geocode path keeps no shared rate-gate
state; each task independently sleeps one second before dispatching,
so two uncached geocode requests arriving concurrently at t = 0 both
dispatch upstream at t = 1: the wall-clock span between the first and
the last dispatch is 0 seconds, not the at-least (N-1) = 1 second a
blocking acquire recording lastCallAt would enforce. -/
theorem concurrent_geocode_requests_dispatch_simultaneously :
    geocode_concurrent_span [0, 0] = 0 ∧
    ¬ geocode_concurrent_span [0, 0] ≥ (2 - 1) * 1 := by
  constructor
  · rfl
  · decide

/-- Claim C5: failed fetches are never written to the cache. For a
key never stored, an exchange-rates fetch whose upstream fails
returns the empty dict, leaves the cache unchanged and dispatches the
upstream, and an immediately repeated fetch dispatches it again; a
crypto fetch whose outcome is a failure (the returned value is falsy:
None on not-found and on transport error) likewise leaves the cache
unchanged, and a repeated fetch dispatches the upstream again. -/
theorem failed_fetch_not_cached_and_refetches
    (base coin vs : String) (symbols : List String)
    (st : CacheState) (now now2 : ℤ) (up up2 : Upstream)
    (h1 : lookup st.cache (exchange_rates_key base symbols) = none)
    (h2 : lookup st.cache (crypto_key coin vs) = none) :
    (get_exchange_rates base (some symbols) st now .fail = ⟨.dict [], st, true⟩ ∧
     (get_exchange_rates base (some symbols)
        ((get_exchange_rates base (some symbols) st now .fail).state) now2 up2).called
       = true) ∧
    (truthy (get_crypto_price coin vs st now up).result = false →
      (get_crypto_price coin vs st now up).state = st ∧
      (get_crypto_price coin vs st now up).called = true ∧
      (get_crypto_price coin vs
        ((get_crypto_price coin vs st now up).state) now2 up2).called = true) := by
  have he : get_exchange_rates base (some symbols) st now .fail = ⟨.dict [], st, true⟩ := by
    simp only [get_exchange_rates, Option.getD_some, hitValue_of_no_entry st now _ h1]
  refine ⟨⟨he, ?_⟩, ?_⟩
  · rw [he]
    exact get_exchange_rates_called_of_miss _ _ _ _ _ (hitValue_of_no_entry st now2 _ h1)
  · intro hf
    rcases get_crypto_price_miss_cases coin vs st now up
        (hitValue_of_no_entry st now _ h2) with heq | ⟨p, hp, heq⟩ | ⟨p, hp, heq⟩
    · rw [heq]
      exact ⟨rfl, rfl,
        get_crypto_price_called_of_miss _ _ _ _ _ (hitValue_of_no_entry st now2 _ h2)⟩
    · rw [heq]
      exact ⟨rfl, rfl,
        get_crypto_price_called_of_miss _ _ _ _ _ (hitValue_of_no_entry st now2 _ h2)⟩
    · rw [heq] at hf
      simp only [] at hf
      rw [hp] at hf
      exact absurd hf (by decide)

/-- Claim C5, witness: starting from the empty cache, a failing
exchange-rates fetch and a not-found crypto fetch (for the
nonexistent id notacoin) leave no cache entry and repeated fetches
dispatch the upstream again. -/
theorem failed_fetch_not_cached_and_refetches_witness :
    (lookup emptyCache.cache (exchange_rates_key "USD" ["EUR"]) = none) ∧
    (lookup emptyCache.cache (crypto_key "notacoin" "usd") = none) ∧
    ((get_exchange_rates "USD" (some ["EUR"]) emptyCache 0 .fail =
        ⟨.dict [], emptyCache, true⟩ ∧
      (get_exchange_rates "USD" (some ["EUR"])
        ((get_exchange_rates "USD" (some ["EUR"]) emptyCache 0 .fail).state)
        1 .fail).called = true) ∧
     (truthy (get_crypto_price "notacoin" "usd" emptyCache 0 (.ok (.dict []))).result
        = false →
       (get_crypto_price "notacoin" "usd" emptyCache 0 (.ok (.dict []))).state
         = emptyCache ∧
       (get_crypto_price "notacoin" "usd" emptyCache 0 (.ok (.dict []))).called = true ∧
       (get_crypto_price "notacoin" "usd"
         ((get_crypto_price "notacoin" "usd" emptyCache 0 (.ok (.dict []))).state)
         1 .fail).called = true)) :=
  ⟨rfl, rfl,
   failed_fetch_not_cached_and_refetches "USD" "notacoin" "usd" ["EUR"]
     emptyCache 0 1 (.ok (.dict [])) .fail rfl rfl⟩

/-- Claim C6, counterexample: the holidays adapter does not map an
empty result array to NotFound: a 2xx response with an empty body is
returned as a success payload (the empty list, not None) and is even
written to the cache. -/
theorem holidays_empty_array_is_cached_success :
    (get_public_holidays "KE" 2024 emptyCache 0 (.ok (.list []))).result = .list [] ∧
    ¬ (get_public_holidays "KE" 2024 emptyCache 0 (.ok (.list []))).result = .none ∧
    lookup (get_public_holidays "KE" 2024 emptyCache 0 (.ok (.list []))).state.cache
      (holidays_key "KE" 2024) = some (.list []) := by
  refine ⟨rfl, ?_, rfl⟩
  intro h
  have h2 : PyVal.list [] = PyVal.none := h
  exact PyVal.noConfusion h2

/-- Claim C6, amended: the crypto and geocoding adapters return None
when the upstream responds successfully but indicates no such
resource (missing key, empty result array) — but that None is the
same value they return on a transport failure, so NotFound is not an
outcome distinct from Unavailable at the adapter boundary; and the
holidays adapter passes an upstream body through as a success payload
(caching it for 86400 seconds) instead of returning NotFound on an
empty array. -/
theorem empty_result_yields_none_but_not_distinct
    (coin vs addr code : String) (year : Nat) (d : List (String × PyVal)) (body : PyVal)
    (st : CacheState) (now : ℤ)
    (hc : hitValue st now (crypto_key coin vs) = none)
    (hcd : lookup d coin = none)
    (hg : hitValue st now (geocode_key addr) = none)
    (hh : hitValue st now (holidays_key code year) = none) :
    get_crypto_price coin vs st now (.ok (.dict d)) = ⟨.none, st, true⟩ ∧
    get_crypto_price coin vs st now .fail = ⟨.none, st, true⟩ ∧
    geocode_address addr st now (.ok (.list [])) = ⟨.none, st, true⟩ ∧
    geocode_address addr st now .fail = ⟨.none, st, true⟩ ∧
    get_public_holidays code year st now (.ok body) =
      ⟨body, set_cache st now (holidays_key code year) body 86400, true⟩ := by
  refine ⟨?_, ?_, ?_, ?_, ?_⟩
  · simp [get_crypto_price, hc, dictGetD, hcd, lookup]
  · simp [get_crypto_price, hc]
  · simp [geocode_address, hg]
  · simp [geocode_address, hg]
  · simp [get_public_holidays, hh]

/-- Claim C6, witness: on the empty cache, the not-found and
transport-failure outcomes of the crypto and geocoding adapters
coincide (both None), and the holidays adapter returns and caches an
empty array. -/
theorem empty_result_yields_none_but_not_distinct_witness :
    hitValue emptyCache 0 (crypto_key "notacoin" "usd") = none ∧
    lookup ([] : List (String × PyVal)) "notacoin" = none ∧
    hitValue emptyCache 0 (geocode_key "Nowhere") = none ∧
    hitValue emptyCache 0 (holidays_key "XX" 2024) = none ∧
    (get_crypto_price "notacoin" "usd" emptyCache 0 (.ok (.dict [])) =
       ⟨.none, emptyCache, true⟩ ∧
     get_crypto_price "notacoin" "usd" emptyCache 0 .fail = ⟨.none, emptyCache, true⟩ ∧
     geocode_address "Nowhere" emptyCache 0 (.ok (.list [])) =
       ⟨.none, emptyCache, true⟩ ∧
     geocode_address "Nowhere" emptyCache 0 .fail = ⟨.none, emptyCache, true⟩ ∧
     get_public_holidays "XX" 2024 emptyCache 0 (.ok (.list [])) =
       ⟨.list [], set_cache emptyCache 0 (holidays_key "XX" 2024) (.list []) 86400,
        true⟩) :=
  ⟨rfl, rfl, rfl, rfl,
   empty_result_yields_none_but_not_distinct "notacoin" "usd" "Nowhere" "XX" 2024 []
     (.list []) emptyCache 0 rfl rfl rfl rfl⟩

/-- Claim C7, counterexample: the weather adapter does not strip the
upstream object down to temperature, windspeed and weathercode; a
current_weather object carrying an extra time field is returned with
that field intact. -/
theorem weather_passes_extra_fields_through :
    (get_weather "-1.286389" "36.817223" emptyCache 0
      (.ok (.dict [("current_weather", .dict [("temperature", .num 22.5),
        ("windspeed", .num 10.2), ("weathercode", .num 0),
        ("time", .str "2026-10-12T00:00")])]))).result =
      .dict [("temperature", .num 22.5), ("windspeed", .num 10.2),
        ("weathercode", .num 0), ("time", .str "2026-10-12T00:00")] := by
  rfl

/-- Claim C7, amended: the weather adapter returns the upstream
current_weather object verbatim (whatever fields it carries) and, if
the object is truthy, caches it for 1800 seconds; for the stub of the
end-to-end scenario this is exactly the three-field object of the
claim. -/
theorem weather_returns_current_weather_verbatim
    (latS lonS : String) (d : List (String × PyVal)) (cw : PyVal)
    (st : CacheState) (now : ℤ)
    (h0 : hitValue st now (weather_key latS lonS) = none)
    (hcw : lookup d "current_weather" = some cw) (ht : truthy cw = true) :
    get_weather latS lonS st now (.ok (.dict d)) =
      ⟨cw, set_cache st now (weather_key latS lonS) cw 1800, true⟩ := by
  simp [get_weather, h0, dictGetD, hcw, ht]

/-- Claim C7, witness: the end-to-end scenario of the claim — the
three-field stub body yields exactly that object, cached with TTL
1800. -/
theorem weather_returns_current_weather_verbatim_witness :
    hitValue emptyCache 0 (weather_key "-1.286389" "36.817223") = none ∧
    lookup [("current_weather", PyVal.dict [("temperature", .num 22.5),
      ("windspeed", .num 10.2), ("weathercode", .num 0)])] "current_weather" =
      some (.dict [("temperature", .num 22.5), ("windspeed", .num 10.2),
        ("weathercode", .num 0)]) ∧
    truthy (.dict [("temperature", .num 22.5), ("windspeed", .num 10.2),
      ("weathercode", .num 0)]) = true ∧
    get_weather "-1.286389" "36.817223" emptyCache 0
        (.ok (.dict [("current_weather", .dict [("temperature", .num 22.5),
          ("windspeed", .num 10.2), ("weathercode", .num 0)])])) =
      ⟨.dict [("temperature", .num 22.5), ("windspeed", .num 10.2),
        ("weathercode", .num 0)],
       set_cache emptyCache 0 (weather_key "-1.286389" "36.817223")
         (.dict [("temperature", .num 22.5), ("windspeed", .num 10.2),
           ("weathercode", .num 0)]) 1800, true⟩ :=
  ⟨rfl, rfl, rfl,
   weather_returns_current_weather_verbatim "-1.286389" "36.817223"
     [("current_weather", .dict [("temperature", .num 22.5), ("windspeed", .num 10.2),
       ("weathercode", .num 0)])]
     (.dict [("temperature", .num 22.5), ("windspeed", .num 10.2),
       ("weathercode", .num 0)])
     emptyCache 0 rfl rfl rfl⟩

/-- Claim C8: the carbon calculator is pure arithmetic over its four
inputs with the fixed emission factors and offset constants of the
source; compute(1000, 0, 50, 5000) yields the breakdown
electricity=475.0, fuel=115.5, flights=1275.0 and total 1865.5 kg
CO2e, which equals 1000*0.475 + 50*2.31 + 5000*0.255.  Exactly the
fields the claim names are asserted: their double arithmetic is exact
at this input, so the rational model provably matches CPython on
them. -/
theorem carbon_footprint_scenario :
    pySub (calculate_carbon_footprint 1000 0 50 5000) "total_kg_co2e" =
      some (.num 1865.5) ∧
    pySub (calculate_carbon_footprint 1000 0 50 5000) "breakdown" =
      some (.dict [("electricity_kg_co2e", .num 475),
        ("natural_gas_kg_co2e", .num 0),
        ("fuel_kg_co2e", .num 115.5),
        ("flights_kg_co2e", .num 1275)]) ∧
    (1865.5 : ℚ) = 1000 * 0.475 + 50 * 2.31 + 5000 * 0.255 := by
  refine ⟨?_, ?_, by norm_num⟩
  · norm_num [calculate_carbon_footprint, roundTo, pySub, lookup]
  · norm_num [calculate_carbon_footprint, roundTo, pySub, lookup]
    rfl

/-- Claim C9: a stored cache value that is falsy (empty dict, empty
list, 0, None, empty string) is treated as a miss by the truthiness
guard on every subsequent call, so even while its TTL is unexpired
the adapter dispatches a fresh upstream call (shown for the
exchange-rates and book-search adapters, for every upstream
behaviour). -/
theorem falsy_cached_value_is_treated_as_miss
    (base : String) (symbols : List String) (q : String) (limit : Nat)
    (st : CacheState) (t now T : ℤ) (v : PyVal) (up : Upstream)
    (hv : truthy v = false) (h : now < t + T) :
    (get_exchange_rates base (some symbols)
        (set_cache st t (exchange_rates_key base symbols) v T) now up).called = true ∧
    (search_books q limit
        (set_cache st t (book_search_key q limit) v T) now up).called = true := by
  constructor
  · exact get_exchange_rates_called_of_miss _ _ _ _ _
      (by rw [hitValue_set_self _ _ _ _ _ _ h, hv]; rfl)
  · exact search_books_called_of_miss _ _ _ _ _
      (by rw [hitValue_set_self _ _ _ _ _ _ h, hv]; rfl)

/-- Claim C9, witness: an empty dict stored at t = 0 with TTL 3600 is
bypassed at t = 10 and both adapters dispatch the upstream. -/
theorem falsy_cached_value_is_treated_as_miss_witness :
    truthy (.dict []) = false ∧ ((10 : ℤ) < 0 + 3600) ∧
    ((get_exchange_rates "USD" (some ["EUR"])
        (set_cache emptyCache 0 (exchange_rates_key "USD" ["EUR"]) (.dict []) 3600)
        10 .fail).called = true ∧
     (search_books "lean" 10
        (set_cache emptyCache 0 (book_search_key "lean" 10) (.dict []) 3600)
        10 .fail).called = true) :=
  ⟨rfl, by decide,
   falsy_cached_value_is_treated_as_miss "USD" ["EUR"] "lean" 10 emptyCache 0 10 3600
     (.dict []) .fail rfl (by decide)⟩

/-- Claim C10: the random-users cache key embeds the calendar day and
the IP-geolocation key the hour, so calls whose rendered day
(respectively hour) stamps differ derive different keys; with no
entry yet under the new stamp the adapter dispatches the upstream
even if an entry from the previous period is alive, and that older
entry remains in the cache untouched (and unreachable through the new
key). -/
theorem datestamped_keys_isolate_periods
    (count : Nat) (nat1 d1 d2 hr1 hr2 : String)
    (st : CacheState) (now : ℤ) (up : Upstream)
    (hd : d1 ≠ d2) (hh : hr1 ≠ hr2)
    (hday : lookup st.cache (random_users_key count nat1 d2) = none)
    (hhour : lookup st.cache (ip_geo_key hr2) = none) :
    random_users_key count nat1 d1 ≠ random_users_key count nat1 d2 ∧
    ip_geo_key hr1 ≠ ip_geo_key hr2 ∧
    (generate_random_users count nat1 d2 st now up).called = true ∧
    lookup (generate_random_users count nat1 d2 st now up).state.cache
        (random_users_key count nat1 d1) =
      lookup st.cache (random_users_key count nat1 d1) ∧
    (get_ip_geolocation hr2 st now up).called = true ∧
    lookup (get_ip_geolocation hr2 st now up).state.cache (ip_geo_key hr1) =
      lookup st.cache (ip_geo_key hr1) := by
  have hk : random_users_key count nat1 d1 ≠ random_users_key count nat1 d2 := by
    unfold random_users_key
    exact append_right_ne _ hd
  have hk2 : ip_geo_key hr1 ≠ ip_geo_key hr2 := by
    unfold ip_geo_key
    exact append_right_ne _ hh
  have hm := generate_random_users_miss_spec count nat1 d2 st now up
    (hitValue_of_no_entry _ _ _ hday)
  have hm2 := get_ip_geolocation_miss_spec hr2 st now up
    (hitValue_of_no_entry _ _ _ hhour)
  refine ⟨hk, hk2, hm.1, ?_, hm2.1, ?_⟩
  · rcases hm.2 with hs | ⟨v, hs⟩
    · rw [hs]
    · rw [hs, lookup_set_cache_other _ _ _ _ _ _ (Ne.symm hk)]
  · rcases hm2.2 with hs | ⟨v, hs⟩
    · rw [hs]
    · rw [hs, lookup_set_cache_other _ _ _ _ _ _ (Ne.symm hk2)]

/-- Claim C10, witness: across the day boundary 20261011 to 20261012
and the hour boundary 2026101108 to 2026101109, the keys differ, the
new-period fetch dispatches the upstream and the old-period slot is
untouched. -/
theorem datestamped_keys_isolate_periods_witness :
    ("20261011" : String) ≠ "20261012" ∧ ("2026101108" : String) ≠ "2026101109" ∧
    lookup emptyCache.cache (random_users_key 10 "us" "20261012") = none ∧
    lookup emptyCache.cache (ip_geo_key "2026101109") = none ∧
    (random_users_key 10 "us" "20261011" ≠ random_users_key 10 "us" "20261012" ∧
     ip_geo_key "2026101108" ≠ ip_geo_key "2026101109" ∧
     (generate_random_users 10 "us" "20261012" emptyCache 0 .fail).called = true ∧
     lookup (generate_random_users 10 "us" "20261012" emptyCache 0 .fail).state.cache
         (random_users_key 10 "us" "20261011") =
       lookup emptyCache.cache (random_users_key 10 "us" "20261011") ∧
     (get_ip_geolocation "2026101109" emptyCache 0 .fail).called = true ∧
     lookup (get_ip_geolocation "2026101109" emptyCache 0 .fail).state.cache
         (ip_geo_key "2026101108") =
       lookup emptyCache.cache (ip_geo_key "2026101108")) :=
  ⟨by decide, by decide, rfl, rfl,
   datestamped_keys_isolate_periods 10 "us" "20261011" "20261012" "2026101108"
     "2026101109" emptyCache 0 .fail (by decide) (by decide) rfl rfl⟩
